import Mathlib

/-!
Verification development for the model-serving client of the
qwen3-devagent-core repository.  The Lean definitions below are a shallow
embedding of the Python module src/api/ollama_api.py together with the
configuration constants it imports from src/config.py.

Modelling conventions:
  - JSON values are the inductive type Json; a Python dict of JSON values
    is an insertion-ordered association list List (String x Json) with the
    dict operations (lookup with default, membership test, item
    assignment, dict.update) defined below to match Python semantics.
  - The HTTP layer (the requests library) is an input to each operation:
    HttpOutcome describes what the library does for one call - raise a
    connection error, raise a timeout, or deliver a response with a
    status code, a status-error text (the str of the HTTPError that
    raise_for_status would raise for a 4xx or 5xx status) and a body.
    For non-streaming calls the body is the result of response.json();
    for streaming calls it is the list of lines of response.iter_lines(),
    each line carrying its raw text and the result of json.loads on it.
  - Python exceptions are the inductive type PyError.  The module catches
    requests.exceptions.RequestException and re-raises a plain Exception
    whose message embeds str(e); this is the constructor PyError.exc.
    With requests at version 2.27 or later, response.json() raises
    requests.exceptions.JSONDecodeError, a RequestException subclass, so
    in the non-streaming operations a body parse failure is caught and
    wrapped the same way.  Inside the streaming loops json.loads raises
    the standard-library json.JSONDecodeError, which is not a
    RequestException and escapes the handler unwrapped
    (PyError.jsonDecodeError).  Calling .get on a non-dict value raises
    AttributeError and calling len on an unsized value raises TypeError;
    neither is a RequestException, so both escape unwrapped.
  - A generator is modelled by the finite sequence of elements it yields,
    in order, together with the way it stops: StreamResult.ok for a
    normal return, StreamResult.err for an escaping exception after the
    listed elements.
-/

/-- JSON values, the payload of every request and response body. -/
inductive Json where
  | null
  | bool (b : Bool)
  | num (n : Int)
  | str (s : String)
  | arr (elems : List Json)
  | obj (fields : List (String × Json))
deriving Repr

/-- A Python dict with string keys and JSON values, as an insertion-ordered
association list. -/
abbrev Dict := List (String × Json)

/-- Python d.get(k): the value at the first matching key, if any. -/
def dictGet? : Dict → String → Option Json
  | [], _ => none
  | (k', v) :: d, k => if k' = k then some v else dictGet? d k

/-- Python d.get(k, dflt): lookup with a default value. -/
def dictGetD (d : Dict) (k : String) (dflt : Json) : Json :=
  (dictGet? d k).getD dflt

/-- Python k in d: key membership. -/
def dictHasKey : Dict → String → Bool
  | [], _ => false
  | (k', _) :: d, k => if k' = k then true else dictHasKey d k

/-- Python d[k] = v: replace the value at an existing key in place,
otherwise append the new pair at the end. -/
def dictSet : Dict → String → Json → Dict
  | [], k, v => [(k, v)]
  | (k', v') :: d, k, v => if k' = k then (k', v) :: d else (k', v') :: dictSet d k v

/-- Python d.update(e): assign every pair of e into d, in order. -/
def dictUpdate (d : Dict) (e : Dict) : Dict :=
  e.foldl (fun acc p => dictSet acc p.1 p.2) d

/-- The keys of a dict, in order. -/
def dictKeys : Dict → List String :=
  List.map Prod.fst

/-- Python truthiness of a JSON value: None, False, 0, and empty
strings, lists and dicts are falsy; everything else is truthy. -/
def Json.truthy : Json → Bool
  | Json.null => false
  | Json.bool b => b
  | Json.num n => n != 0
  | Json.str s => !(s == "")
  | Json.arr elems => !elems.isEmpty
  | Json.obj fields => !fields.isEmpty

/-- Python len(v) for JSON values: defined for strings, lists and dicts;
none for values on which len raises TypeError. -/
def pyLen? : Json → Option Nat
  | Json.str s => some s.length
  | Json.arr elems => some elems.length
  | Json.obj fields => some fields.length
  | _ => none

/-- The Python exceptions the module can let escape to its caller. -/
inductive PyError where
  | exc (msg : String)
  | jsonDecodeError (msg : String)
  | attributeError (msg : String)
  | typeError (msg : String)
deriving Repr, DecidableEq

/-- The Python class name of an escaped exception: every failure the
module raises itself is a plain Exception; the others are the built-in
classes that escape the RequestException handler unwrapped. -/
def PyError.cls : PyError → String
  | PyError.exc _ => "Exception"
  | PyError.jsonDecodeError _ => "json.decoder.JSONDecodeError"
  | PyError.attributeError _ => "AttributeError"
  | PyError.typeError _ => "TypeError"

/-- The class of the error of a failed call, none on success. -/
def errClass {α : Type} : Except PyError α → Option String
  | Except.error e => some e.cls
  | Except.ok _ => none

/-! Configuration constants from src/config.py. -/

def OLLAMA_HOST : String := "localhost"

def OLLAMA_PORT : Nat := 11434

def OLLAMA_BASE_URL : String := "http://" ++ OLLAMA_HOST ++ ":" ++ toString OLLAMA_PORT

def OLLAMA_API_MODELS : String := OLLAMA_BASE_URL ++ "/api/tags"

def OLLAMA_API_GENERATE : String := OLLAMA_BASE_URL ++ "/api/generate"

def OLLAMA_API_CHAT : String := OLLAMA_BASE_URL ++ "/api/chat"

/-- Request timeout in seconds (REQUEST_TIMEOUT in src/config.py). -/
def REQUEST_TIMEOUT : Nat := 30

/-- Default token ceiling (MAX_TOKENS in src/config.py). -/
def MAX_TOKENS : Int := 2048

/-- The state of an OllamaAPI instance: the three endpoint URLs set by
the constructor.  No method assigns to these fields. -/
structure OllamaAPI where
  api_models : String
  api_generate : String
  api_chat : String
deriving Repr, DecidableEq

/-- The constructor: the three URLs from config, overridden from base_url
when one is given and truthy (a Python empty string is falsy). -/
def OllamaAPI.init (base_url : Option String) : OllamaAPI :=
  let fromConfig : OllamaAPI :=
    { api_models := OLLAMA_API_MODELS
      api_generate := OLLAMA_API_GENERATE
      api_chat := OLLAMA_API_CHAT }
  match base_url with
  | none => fromConfig
  | some u =>
      if u = "" then fromConfig
      else
        { api_models := u ++ "/api/tags"
          api_generate := u ++ "/api/generate"
          api_chat := u ++ "/api/chat" }

/-! Request-body construction, one definition per method, following the
source lines that build request_data.  Python: if params is a non-empty
dict it is merged with dict.update; merging an empty dict is a no-op, so
the falsy-params case coincides with updating by the empty list. -/

/-- request_data of OllamaAPI.generate: model and prompt, then the params
merge, then the default token ceiling when no max_tokens key is present. -/
def generateRequestData (model prompt : String) (params : Option Dict) : Dict :=
  let request_data : Dict := [("model", Json.str model), ("prompt", Json.str prompt)]
  let request_data :=
    match params with
    | some p => dictUpdate request_data p
    | none => request_data
  if dictHasKey request_data "max_tokens" then request_data
  else dictSet request_data "max_tokens" (Json.num MAX_TOKENS)

/-- request_data of OllamaAPI.generate_stream: as generate plus the
stream flag set before the params merge. -/
def generateStreamRequestData (model prompt : String) (params : Option Dict) : Dict :=
  let request_data : Dict :=
    [("model", Json.str model), ("prompt", Json.str prompt), ("stream", Json.bool true)]
  let request_data :=
    match params with
    | some p => dictUpdate request_data p
    | none => request_data
  if dictHasKey request_data "max_tokens" then request_data
  else dictSet request_data "max_tokens" (Json.num MAX_TOKENS)

/-- request_data of OllamaAPI.chat: model and messages, then the params
merge.  The source has no max_tokens defaulting here. -/
def chatRequestData (model : String) (messages : List Dict) (params : Option Dict) : Dict :=
  let request_data : Dict :=
    [("model", Json.str model), ("messages", Json.arr (messages.map Json.obj))]
  match params with
  | some p => dictUpdate request_data p
  | none => request_data

/-- request_data of OllamaAPI.chat_stream: as chat plus the stream flag,
and again no max_tokens defaulting. -/
def chatStreamRequestData (model : String) (messages : List Dict) (params : Option Dict) : Dict :=
  let request_data : Dict :=
    [("model", Json.str model), ("messages", Json.arr (messages.map Json.obj)),
     ("stream", Json.bool true)]
  match params with
  | some p => dictUpdate request_data p
  | none => request_data

/-- What the requests library does for one HTTP call: raise a connection
error, raise a timeout, or deliver a response.  statusText is the str of
the HTTPError that raise_for_status raises when the status is 4xx or
5xx.  The body type is the parsed body for non-streaming calls and the
line list for streaming calls. -/
inductive HttpOutcome (β : Type) where
  | connError (errText : String)
  | timeoutError (errText : String)
  | response (status : Nat) (statusText : String) (body : β)

/-- One line of response.iter_lines(): its raw text (the loop skips falsy,
that is empty, lines) and the result of json.loads on it, with the error
text when the line is not valid JSON. -/
structure StreamLine where
  raw : String
  parsed : Except String Json

/-- How a generator run ends: a normal return after yielding the listed
elements, or an exception escaping after them. -/
inductive StreamResult (α : Type) where
  | ok (elems : List α)
  | err (elems : List α) (e : PyError)
deriving Repr

/-- Prepend one yielded element to the rest of a generator run. -/
def StreamResult.cons {α : Type} (x : α) : StreamResult α → StreamResult α
  | StreamResult.ok elems => StreamResult.ok (x :: elems)
  | StreamResult.err elems e => StreamResult.err (x :: elems) e

/-- Result of a GET-based method call: the client state after the call
and the outcome. -/
structure GetCall (α : Type) where
  state : OllamaAPI
  result : Except PyError α

/-- Result of a non-streaming POST-based method call: the client state,
the JSON body transmitted in the POST, and the outcome. -/
structure PostCall (α : Type) where
  state : OllamaAPI
  sent : Dict
  result : Except PyError α

/-- Result of a streaming POST-based method call: the client state, the
transmitted body, and the generator run. -/
structure StreamCall where
  state : OllamaAPI
  sent : Dict
  stream : StreamResult Json

/-- The read loop of generate_stream: skip falsy lines; parse each line;
extract the response field with default empty string; stop before
yielding when the done flag is truthy; otherwise yield the token. -/
def generateStreamLoop : List StreamLine → StreamResult Json
  | [] => StreamResult.ok []
  | l :: rest =>
      if l.raw = "" then generateStreamLoop rest
      else
        match l.parsed with
        | Except.error msg => StreamResult.err [] (PyError.jsonDecodeError msg)
        | Except.ok (Json.obj line_data) =>
            let token := dictGetD line_data "response" (Json.str "")
            if (dictGetD line_data "done" (Json.bool false)).truthy then
              StreamResult.ok []
            else
              StreamResult.cons token (generateStreamLoop rest)
        | Except.ok _ => StreamResult.err [] (PyError.attributeError "no attribute get")

/-- The read loop of chat_stream: skip falsy lines; parse each line;
yield the whole parsed object; stop after yielding when the done flag is
truthy. -/
def chatStreamLoop : List StreamLine → StreamResult Json
  | [] => StreamResult.ok []
  | l :: rest =>
      if l.raw = "" then chatStreamLoop rest
      else
        match l.parsed with
        | Except.error msg => StreamResult.err [] (PyError.jsonDecodeError msg)
        | Except.ok (Json.obj line_data) =>
            if (dictGetD line_data "done" (Json.bool false)).truthy then
              StreamResult.ok [Json.obj line_data]
            else
              StreamResult.cons (Json.obj line_data) (chatStreamLoop rest)
        | Except.ok _ => StreamResult.err [] (PyError.attributeError "no attribute get")

/-- OllamaAPI.list_models: GET the tags endpoint, raise_for_status, parse
the body, read the models key with default empty list; the logging call
takes len of the result.  Every RequestException is re-raised as a plain
Exception with the Russian message prefix of the source. -/
def OllamaAPI.list_models (api : OllamaAPI) (t : HttpOutcome (Except String Json)) :
    GetCall Json :=
  { state := api
    result :=
      match t with
      | HttpOutcome.connError e =>
          Except.error (PyError.exc ("Не удалось получить список моделей: " ++ e))
      | HttpOutcome.timeoutError e =>
          Except.error (PyError.exc ("Не удалось получить список моделей: " ++ e))
      | HttpOutcome.response status statusText body =>
          if 400 ≤ status ∧ status < 600 then
            Except.error (PyError.exc ("Не удалось получить список моделей: " ++ statusText))
          else
            match body with
            | Except.error msg =>
                Except.error (PyError.exc ("Не удалось получить список моделей: " ++ msg))
            | Except.ok (Json.obj fields) =>
                let models := dictGetD fields "models" (Json.arr [])
                match pyLen? models with
                | some _ => Except.ok models
                | none => Except.error (PyError.typeError "object has no len()")
            | Except.ok _ =>
                Except.error (PyError.attributeError "no attribute get") }

/-- OllamaAPI.generate: POST the request body, raise_for_status, parse
the body, read the response key with default empty string; the logging
call takes len of the result. -/
def OllamaAPI.generate (api : OllamaAPI) (model prompt : String) (params : Option Dict)
    (t : HttpOutcome (Except String Json)) : PostCall Json :=
  { state := api
    sent := generateRequestData model prompt params
    result :=
      match t with
      | HttpOutcome.connError e =>
          Except.error (PyError.exc ("Не удалось получить ответ от модели: " ++ e))
      | HttpOutcome.timeoutError e =>
          Except.error (PyError.exc ("Не удалось получить ответ от модели: " ++ e))
      | HttpOutcome.response status statusText body =>
          if 400 ≤ status ∧ status < 600 then
            Except.error (PyError.exc ("Не удалось получить ответ от модели: " ++ statusText))
          else
            match body with
            | Except.error msg =>
                Except.error (PyError.exc ("Не удалось получить ответ от модели: " ++ msg))
            | Except.ok (Json.obj fields) =>
                let generated_text := dictGetD fields "response" (Json.str "")
                match pyLen? generated_text with
                | some _ => Except.ok generated_text
                | none => Except.error (PyError.typeError "object has no len()")
            | Except.ok _ =>
                Except.error (PyError.attributeError "no attribute get") }

/-- OllamaAPI.generate_stream: POST the request body with the stream
flag, raise_for_status, then run the line loop. -/
def OllamaAPI.generate_stream (api : OllamaAPI) (model prompt : String) (params : Option Dict)
    (t : HttpOutcome (List StreamLine)) : StreamCall :=
  { state := api
    sent := generateStreamRequestData model prompt params
    stream :=
      match t with
      | HttpOutcome.connError e =>
          StreamResult.err []
            (PyError.exc ("Не удалось получить потоковый ответ от модели: " ++ e))
      | HttpOutcome.timeoutError e =>
          StreamResult.err []
            (PyError.exc ("Не удалось получить потоковый ответ от модели: " ++ e))
      | HttpOutcome.response status statusText lines =>
          if 400 ≤ status ∧ status < 600 then
            StreamResult.err []
              (PyError.exc ("Не удалось получить потоковый ответ от модели: " ++ statusText))
          else generateStreamLoop lines }

/-- OllamaAPI.chat: POST the request body, raise_for_status, parse the
body and return the whole parsed object. -/
def OllamaAPI.chat (api : OllamaAPI) (model : String) (messages : List Dict)
    (params : Option Dict) (t : HttpOutcome (Except String Json)) : PostCall Json :=
  { state := api
    sent := chatRequestData model messages params
    result :=
      match t with
      | HttpOutcome.connError e =>
          Except.error (PyError.exc ("Не удалось получить ответ чата от модели: " ++ e))
      | HttpOutcome.timeoutError e =>
          Except.error (PyError.exc ("Не удалось получить ответ чата от модели: " ++ e))
      | HttpOutcome.response status statusText body =>
          if 400 ≤ status ∧ status < 600 then
            Except.error (PyError.exc ("Не удалось получить ответ чата от модели: " ++ statusText))
          else
            match body with
            | Except.error msg =>
                Except.error (PyError.exc ("Не удалось получить ответ чата от модели: " ++ msg))
            | Except.ok data => Except.ok data }

/-- OllamaAPI.chat_stream: POST the request body with the stream flag,
raise_for_status, then run the line loop that yields raw objects. -/
def OllamaAPI.chat_stream (api : OllamaAPI) (model : String) (messages : List Dict)
    (params : Option Dict) (t : HttpOutcome (List StreamLine)) : StreamCall :=
  { state := api
    sent := chatStreamRequestData model messages params
    stream :=
      match t with
      | HttpOutcome.connError e =>
          StreamResult.err []
            (PyError.exc ("Не удалось получить потоковый ответ чата от модели: " ++ e))
      | HttpOutcome.timeoutError e =>
          StreamResult.err []
            (PyError.exc ("Не удалось получить потоковый ответ чата от модели: " ++ e))
      | HttpOutcome.response status statusText lines =>
          if 400 ≤ status ∧ status < 600 then
            StreamResult.err []
              (PyError.exc ("Не удалось получить потоковый ответ чата от модели: " ++ statusText))
          else chatStreamLoop lines }

/-! Lemmas about the dict operations. -/

theorem dictGet?_dictSet_self (d : Dict) (k : String) (v : Json) :
    dictGet? (dictSet d k v) k = some v := by
  induction d with
  | nil => simp [dictSet, dictGet?]
  | cons p d ih =>
      obtain ⟨k', v'⟩ := p
      by_cases h : k' = k
      · subst h
        simp [dictSet, dictGet?]
      · simp [dictSet, dictGet?, h, ih]

theorem dictGet?_dictSet_ne (d : Dict) (k k₂ : String) (v : Json) (h : k₂ ≠ k) :
    dictGet? (dictSet d k v) k₂ = dictGet? d k₂ := by
  induction d with
  | nil => simp [dictSet, dictGet?, Ne.symm h]
  | cons p d ih =>
      obtain ⟨k', v'⟩ := p
      by_cases h' : k' = k
      · subst h'
        simp [dictSet, dictGet?, Ne.symm h]
      · simp only [dictSet, if_neg h', dictGet?]
        by_cases h'' : k' = k₂ <;> simp [h'', ih]

theorem dictHasKey_eq_isSome (d : Dict) (k : String) :
    dictHasKey d k = (dictGet? d k).isSome := by
  induction d with
  | nil => rfl
  | cons p d ih =>
      obtain ⟨k', v'⟩ := p
      by_cases h : k' = k <;> simp [dictHasKey, dictGet?, h, ih]

theorem dictGet?_eq_none_of_hasKey (d : Dict) (k : String) (h : dictHasKey d k = false) :
    dictGet? d k = none := by
  rw [dictHasKey_eq_isSome] at h
  exact Option.not_isSome_iff_eq_none.mp (by simp [h])

theorem dictHasKey_eq_false_iff (d : Dict) (k : String) :
    dictHasKey d k = false ↔ ¬ k ∈ dictKeys d := by
  induction d with
  | nil => simp [dictHasKey, dictKeys]
  | cons p d ih =>
      obtain ⟨k', v'⟩ := p
      show (if k' = k then true else dictHasKey d k) = false ↔ ¬ k ∈ k' :: dictKeys d
      by_cases h : k' = k
      · subst h
        simp [List.mem_cons]
      · rw [if_neg h, List.mem_cons, ih]
        constructor
        · intro hnot hmem
          cases hmem with
          | inl he => exact h he.symm
          | inr hm => exact hnot hm
        · intro hnot hm
          exact hnot (Or.inr hm)

theorem dictGet?_dictUpdate_notin (e : Dict) (k : String) :
    dictHasKey e k = false → ∀ d, dictGet? (dictUpdate d e) k = dictGet? d k := by
  induction e with
  | nil => intro _ d; rfl
  | cons p e ih =>
      intro h d
      obtain ⟨k', v'⟩ := p
      by_cases hk : k' = k
      · simp [dictHasKey, hk] at h
      · simp only [dictHasKey, if_neg hk] at h
        show dictGet? (dictUpdate (dictSet d k' v') e) k = dictGet? d k
        rw [ih h (dictSet d k' v')]
        exact dictGet?_dictSet_ne d k' k v' (Ne.symm hk)

theorem dictGet?_dictUpdate_mem (e : Dict) (k : String) (v : Json) :
    (dictKeys e).Nodup → dictGet? e k = some v →
    ∀ d, dictGet? (dictUpdate d e) k = some v := by
  induction e with
  | nil => intro _ h; simp [dictGet?] at h
  | cons p e ih =>
      intro hnd hget d
      obtain ⟨k', v'⟩ := p
      have hnd' : ¬ k' ∈ dictKeys e ∧ (dictKeys e).Nodup :=
        List.nodup_cons.mp (show (k' :: dictKeys e).Nodup from hnd)
      by_cases hk : k' = k
      · subst hk
        simp only [dictGet?, if_pos rfl] at hget
        have hhk : dictHasKey e k' = false := (dictHasKey_eq_false_iff e k').mpr hnd'.1
        show dictGet? (dictUpdate (dictSet d k' v') e) k' = some v
        rw [dictGet?_dictUpdate_notin e k' hhk (dictSet d k' v')]
        rw [dictGet?_dictSet_self]
        exact hget
      · simp only [dictGet?, if_neg hk] at hget
        exact ih hnd'.2 hget (dictSet d k' v')

theorem dictHasKey_dictUpdate_notin (e : Dict) (k : String) (he : dictHasKey e k = false)
    (d : Dict) : dictHasKey (dictUpdate d e) k = dictHasKey d k := by
  rw [dictHasKey_eq_isSome, dictHasKey_eq_isSome, dictGet?_dictUpdate_notin e k he d]

/-! Shapes of NDJSON streams, as the claims quantify over them. -/

/-- A list of stream lines that carries the fragments fs in order: each
line is either blank (and skipped) or parses to a JSON object whose
response field reads as the next fragment and whose done flag reads as
false. -/
inductive FragChain : List StreamLine → List String → Prop where
  | nil : FragChain [] []
  | blank {l : StreamLine} {ls : List StreamLine} {fs : List String} :
      l.raw = "" → FragChain ls fs → FragChain (l :: ls) fs
  | frag {l : StreamLine} {o : Dict} {s : String} {ls : List StreamLine} {fs : List String} :
      l.raw ≠ "" → l.parsed = Except.ok (Json.obj o) →
      dictGetD o "response" (Json.str "") = Json.str s →
      (dictGetD o "done" (Json.bool false)).truthy = false →
      FragChain ls fs → FragChain (l :: ls) (s :: fs)

/-- A list of stream lines each of which is blank (and skipped) or
parses to a JSON object whose done flag reads as false, listed in js. -/
inductive ObjChain : List StreamLine → List Json → Prop where
  | nil : ObjChain [] []
  | blank {l : StreamLine} {ls : List StreamLine} {js : List Json} :
      l.raw = "" → ObjChain ls js → ObjChain (l :: ls) js
  | objLine {l : StreamLine} {o : Dict} {ls : List StreamLine} {js : List Json} :
      l.raw ≠ "" → l.parsed = Except.ok (Json.obj o) →
      (dictGetD o "done" (Json.bool false)).truthy = false →
      ObjChain ls js → ObjChain (l :: ls) (Json.obj o :: js)

/-- A non-blank line that parses to a JSON object whose done flag reads
as true. -/
def isDoneLine (l : StreamLine) (o : Dict) : Prop :=
  l.raw ≠ "" ∧ l.parsed = Except.ok (Json.obj o) ∧
    (dictGetD o "done" (Json.bool false)).truthy = true

theorem generateStreamLoop_chain {pre : List StreamLine} {fs : List String}
    (hpre : FragChain pre fs) {d : StreamLine} {o : Dict} (hd : isDoneLine d o)
    (trailing : List StreamLine) :
    generateStreamLoop (pre ++ d :: trailing) = StreamResult.ok (fs.map Json.str) := by
  induction hpre with
  | nil =>
      obtain ⟨hne, hparse, hdone⟩ := hd
      show generateStreamLoop (d :: trailing) = StreamResult.ok []
      rw [generateStreamLoop, if_neg hne, hparse]
      simp only [hdone]
      rfl
  | blank hblank _ ih =>
      rw [List.cons_append, generateStreamLoop, if_pos hblank]
      exact ih
  | frag hne hparse hresp hdone _ ih =>
      rw [List.cons_append, generateStreamLoop, if_neg hne, hparse]
      simp only [hdone, hresp]
      rw [if_neg (by simp), ih]
      rfl

theorem chatStreamLoop_chain {pre : List StreamLine} {js : List Json}
    (hpre : ObjChain pre js) {d : StreamLine} {o : Dict} (hd : isDoneLine d o)
    (trailing : List StreamLine) :
    chatStreamLoop (pre ++ d :: trailing) = StreamResult.ok (js ++ [Json.obj o]) := by
  induction hpre with
  | nil =>
      obtain ⟨hne, hparse, hdone⟩ := hd
      show chatStreamLoop (d :: trailing) = StreamResult.ok [Json.obj o]
      rw [chatStreamLoop, if_neg hne, hparse]
      simp only [hdone]
      rfl
  | blank hblank _ ih =>
      rw [List.cons_append, chatStreamLoop, if_pos hblank]
      exact ih
  | objLine hne hparse hdone _ ih =>
      rw [List.cons_append, chatStreamLoop, if_neg hne, hparse]
      simp only [hdone]
      rw [if_neg (by simp), ih]
      rfl

/-- Claim C1: for every NDJSON response stream whose lines carry objects
with text fragments F1..Fn and done false, possibly interleaved with
blank lines, followed by an object with done true, generate_stream
yields exactly F1..Fn in that order, skips the blank lines, yields no
element for the done object, and yields nothing further even if more
lines exist on the stream after that object. -/
theorem generate_stream_yields_fragments_in_order (api : OllamaAPI)
    (model prompt : String) (params : Option Dict) (statusText : String)
    (pre : List StreamLine) (fs : List String) (d : StreamLine) (o : Dict)
    (trailing : List StreamLine)
    (hpre : FragChain pre fs) (hd : isDoneLine d o) :
    (api.generate_stream model prompt params
        (HttpOutcome.response 200 statusText (pre ++ d :: trailing))).stream
      = StreamResult.ok (fs.map Json.str) := by
  show generateStreamLoop (pre ++ d :: trailing) = StreamResult.ok (fs.map Json.str)
  exact generateStreamLoop_chain hpre hd trailing

theorem generate_stream_yields_fragments_in_order_witness :
    ((OllamaAPI.init none).generate_stream "qwen3" "hi" none
        (HttpOutcome.response 200 "OK"
          [⟨"a", Except.ok (Json.obj [("response", Json.str "Hel"), ("done", Json.bool false)])⟩,
           ⟨"", Except.error "blank"⟩,
           ⟨"b", Except.ok (Json.obj [("response", Json.str "lo"), ("done", Json.bool false)])⟩,
           ⟨"c", Except.ok (Json.obj [("response", Json.str ""), ("done", Json.bool true)])⟩,
           ⟨"d", Except.ok (Json.obj [("response", Json.str "XX"), ("done", Json.bool false)])⟩])).stream
      = StreamResult.ok [Json.str "Hel", Json.str "lo"] :=
  generate_stream_yields_fragments_in_order (OllamaAPI.init none) "qwen3" "hi" none "OK"
    [⟨"a", Except.ok (Json.obj [("response", Json.str "Hel"), ("done", Json.bool false)])⟩,
     ⟨"", Except.error "blank"⟩,
     ⟨"b", Except.ok (Json.obj [("response", Json.str "lo"), ("done", Json.bool false)])⟩]
    ["Hel", "lo"]
    ⟨"c", Except.ok (Json.obj [("response", Json.str ""), ("done", Json.bool true)])⟩
    [("response", Json.str ""), ("done", Json.bool true)]
    [⟨"d", Except.ok (Json.obj [("response", Json.str "XX"), ("done", Json.bool false)])⟩]
    (FragChain.frag (by decide) rfl rfl rfl
      (FragChain.blank rfl
        (FragChain.frag (by decide) rfl rfl rfl FragChain.nil)))
    ⟨by decide, rfl, rfl⟩

/-- Claim C2: for every NDJSON chat response stream of objects with done
false, possibly with blank lines, followed by an object with done true,
chat_stream yields each non-blank line as its raw parsed JSON object in
arrival order, including the final done object, and yields no further
elements after it even if more lines follow. -/
theorem chat_stream_yields_raw_objects (api : OllamaAPI)
    (model : String) (messages : List Dict) (params : Option Dict) (statusText : String)
    (pre : List StreamLine) (js : List Json) (d : StreamLine) (o : Dict)
    (trailing : List StreamLine)
    (hpre : ObjChain pre js) (hd : isDoneLine d o) :
    (api.chat_stream model messages params
        (HttpOutcome.response 200 statusText (pre ++ d :: trailing))).stream
      = StreamResult.ok (js ++ [Json.obj o]) := by
  show chatStreamLoop (pre ++ d :: trailing) = StreamResult.ok (js ++ [Json.obj o])
  exact chatStreamLoop_chain hpre hd trailing

theorem chat_stream_yields_raw_objects_witness :
    ((OllamaAPI.init none).chat_stream "qwen3" [] none
        (HttpOutcome.response 200 "OK"
          [⟨"a", Except.ok (Json.obj [("message", Json.str "Hi"), ("done", Json.bool false)])⟩,
           ⟨"", Except.error "blank"⟩,
           ⟨"b", Except.ok (Json.obj [("done", Json.bool true)])⟩,
           ⟨"c", Except.ok (Json.obj [("message", Json.str "late"), ("done", Json.bool false)])⟩])).stream
      = StreamResult.ok
          [Json.obj [("message", Json.str "Hi"), ("done", Json.bool false)],
           Json.obj [("done", Json.bool true)]] :=
  chat_stream_yields_raw_objects (OllamaAPI.init none) "qwen3" [] none "OK"
    [⟨"a", Except.ok (Json.obj [("message", Json.str "Hi"), ("done", Json.bool false)])⟩,
     ⟨"", Except.error "blank"⟩]
    [Json.obj [("message", Json.str "Hi"), ("done", Json.bool false)]]
    ⟨"b", Except.ok (Json.obj [("done", Json.bool true)])⟩
    [("done", Json.bool true)]
    [⟨"c", Except.ok (Json.obj [("message", Json.str "late"), ("done", Json.bool false)])⟩]
    (ObjChain.objLine (by decide) rfl rfl
      (ObjChain.blank rfl ObjChain.nil))
    ⟨by decide, rfl, rfl⟩

/-- Lookup after the defaulting idiom of the source: check the key, then
assign the default only when it is absent. -/
theorem dictGet?_withDefault (d : Dict) (k : String) (v : Json) :
    dictGet? (if dictHasKey d k then d else dictSet d k v) k
      = some ((dictGet? d k).getD v) := by
  by_cases h : dictHasKey d k = true
  · rw [if_pos h]
    rw [dictHasKey_eq_isSome] at h
    obtain ⟨w, hw⟩ := Option.isSome_iff_exists.mp h
    rw [hw]
    rfl
  · rw [if_neg h, dictGet?_dictSet_self,
        dictGet?_eq_none_of_hasKey d k (by simpa using h)]
    rfl

theorem generateRequestData_get_mt (model prompt : String) (p : Dict) :
    dictGet? (generateRequestData model prompt (some p)) "max_tokens"
      = some ((dictGet? (dictUpdate
          [("model", Json.str model), ("prompt", Json.str prompt)] p) "max_tokens").getD
            (Json.num MAX_TOKENS)) :=
  dictGet?_withDefault _ _ _

theorem generateStreamRequestData_get_mt (model prompt : String) (p : Dict) :
    dictGet? (generateStreamRequestData model prompt (some p)) "max_tokens"
      = some ((dictGet? (dictUpdate
          [("model", Json.str model), ("prompt", Json.str prompt),
           ("stream", Json.bool true)] p) "max_tokens").getD
            (Json.num MAX_TOKENS)) :=
  dictGet?_withDefault _ _ _

/-- Claim C3: a generate call, streaming or not, whose options carry no
max_tokens key transmits a body containing the default ceiling
MAX_TOKENS; a call that does supply max_tokens transmits the callers
value unchanged. -/
theorem generate_max_tokens_defaulting (api : OllamaAPI) (model prompt : String)
    (t : HttpOutcome (Except String Json)) (ts : HttpOutcome (List StreamLine))
    (p : Dict) (v : Json) (hnd : (dictKeys p).Nodup) :
    (dictGet? (api.generate model prompt none t).sent "max_tokens"
        = some (Json.num MAX_TOKENS)) ∧
    (dictGet? (api.generate_stream model prompt none ts).sent "max_tokens"
        = some (Json.num MAX_TOKENS)) ∧
    (dictHasKey p "max_tokens" = false →
      dictGet? (api.generate model prompt (some p) t).sent "max_tokens"
          = some (Json.num MAX_TOKENS) ∧
      dictGet? (api.generate_stream model prompt (some p) ts).sent "max_tokens"
          = some (Json.num MAX_TOKENS)) ∧
    (dictGet? p "max_tokens" = some v →
      dictGet? (api.generate model prompt (some p) t).sent "max_tokens" = some v ∧
      dictGet? (api.generate_stream model prompt (some p) ts).sent "max_tokens" = some v) := by
  refine ⟨rfl, rfl, fun hmiss => ⟨?_, ?_⟩, fun hv => ⟨?_, ?_⟩⟩
  · show dictGet? (generateRequestData model prompt (some p)) "max_tokens" = _
    rw [generateRequestData_get_mt, dictGet?_dictUpdate_notin p "max_tokens" hmiss]
    rfl
  · show dictGet? (generateStreamRequestData model prompt (some p)) "max_tokens" = _
    rw [generateStreamRequestData_get_mt, dictGet?_dictUpdate_notin p "max_tokens" hmiss]
    rfl
  · show dictGet? (generateRequestData model prompt (some p)) "max_tokens" = _
    rw [generateRequestData_get_mt, dictGet?_dictUpdate_mem p "max_tokens" v hnd hv]
    rfl
  · show dictGet? (generateStreamRequestData model prompt (some p)) "max_tokens" = _
    rw [generateStreamRequestData_get_mt, dictGet?_dictUpdate_mem p "max_tokens" v hnd hv]
    rfl

theorem generate_max_tokens_defaulting_witness :
    dictGet? ((OllamaAPI.init none).generate "qwen3" "hi" none
        (HttpOutcome.connError "x")).sent "max_tokens" = some (Json.num MAX_TOKENS) ∧
    dictGet? ((OllamaAPI.init none).generate "qwen3" "hi"
        (some [("max_tokens", Json.num 64)])
        (HttpOutcome.connError "x")).sent "max_tokens" = some (Json.num 64) :=
  ⟨(generate_max_tokens_defaulting (OllamaAPI.init none) "qwen3" "hi"
      (HttpOutcome.connError "x") (HttpOutcome.connError "x")
      [("max_tokens", Json.num 64)] (Json.num 64) (by simp [dictKeys])).1,
   ((generate_max_tokens_defaulting (OllamaAPI.init none) "qwen3" "hi"
      (HttpOutcome.connError "x") (HttpOutcome.connError "x")
      [("max_tokens", Json.num 64)] (Json.num 64) (by simp [dictKeys])).2.2.2 rfl).1⟩

/-- Claim C4 counterexample: a chat call with no options transmits a
body with no max_tokens key at all, so the transmitted body does not
contain the default token ceiling, for the non-streaming and the
streaming variant alike. -/
theorem chat_no_default_token_ceiling_cex :
    dictHasKey ((OllamaAPI.init none).chat "qwen3" [] none
        (HttpOutcome.connError "x")).sent "max_tokens" = false ∧
    dictHasKey ((OllamaAPI.init none).chat_stream "qwen3" [] none
        (HttpOutcome.connError "x")).sent "max_tokens" = false :=
  ⟨rfl, rfl⟩

/-- Claim C4 amended: a chat call, streaming or not, carries messages
instead of prompt in the body, but unlike generate it does not inject
the default token ceiling: when the options carry no max_tokens key the
transmitted body has none, and when they supply one the callers value is
transmitted unchanged. -/
theorem chat_max_tokens_not_injected (api : OllamaAPI) (model : String)
    (messages : List Dict) (tc : HttpOutcome (Except String Json))
    (tcs : HttpOutcome (List StreamLine)) (p : Dict) (v : Json)
    (hnd : (dictKeys p).Nodup) :
    dictHasKey (api.chat model messages none tc).sent "max_tokens" = false ∧
    dictHasKey (api.chat_stream model messages none tcs).sent "max_tokens" = false ∧
    dictGet? (api.chat model messages none tc).sent "messages"
        = some (Json.arr (messages.map Json.obj)) ∧
    dictHasKey (api.chat model messages none tc).sent "prompt" = false ∧
    (dictHasKey p "max_tokens" = false →
      dictHasKey (api.chat model messages (some p) tc).sent "max_tokens" = false ∧
      dictHasKey (api.chat_stream model messages (some p) tcs).sent "max_tokens" = false) ∧
    (dictGet? p "max_tokens" = some v →
      dictGet? (api.chat model messages (some p) tc).sent "max_tokens" = some v ∧
      dictGet? (api.chat_stream model messages (some p) tcs).sent "max_tokens" = some v) := by
  refine ⟨rfl, rfl, rfl, rfl, fun hmiss => ⟨?_, ?_⟩, fun hv => ⟨?_, ?_⟩⟩
  · show dictHasKey (dictUpdate
        [("model", Json.str model), ("messages", Json.arr (messages.map Json.obj))] p)
        "max_tokens" = false
    rw [dictHasKey_dictUpdate_notin p "max_tokens" hmiss]
    rfl
  · show dictHasKey (dictUpdate
        [("model", Json.str model), ("messages", Json.arr (messages.map Json.obj)),
         ("stream", Json.bool true)] p) "max_tokens" = false
    rw [dictHasKey_dictUpdate_notin p "max_tokens" hmiss]
    rfl
  · exact dictGet?_dictUpdate_mem p "max_tokens" v hnd hv _
  · exact dictGet?_dictUpdate_mem p "max_tokens" v hnd hv _

theorem chat_max_tokens_not_injected_witness :
    dictHasKey ((OllamaAPI.init none).chat "qwen3" [] none
        (HttpOutcome.connError "x")).sent "max_tokens" = false ∧
    dictGet? ((OllamaAPI.init none).chat "qwen3" []
        (some [("max_tokens", Json.num 64)])
        (HttpOutcome.connError "x")).sent "max_tokens" = some (Json.num 64) :=
  ⟨(chat_max_tokens_not_injected (OllamaAPI.init none) "qwen3" []
      (HttpOutcome.connError "x") (HttpOutcome.connError "x")
      [("max_tokens", Json.num 64)] (Json.num 64) (by simp [dictKeys])).1,
   ((chat_max_tokens_not_injected (OllamaAPI.init none) "qwen3" []
      (HttpOutcome.connError "x") (HttpOutcome.connError "x")
      [("max_tokens", Json.num 64)] (Json.num 64) (by simp [dictKeys])).2.2.2.2.2 rfl).1⟩

/-- The text sub occurs contiguously inside the text msg. -/
def includesText (msg sub : String) : Prop :=
  List.IsInfix sub.data msg.data

theorem includesText_append_right (p s : String) : includesText (p ++ s) s :=
  ⟨p.data, [], by simp [String.data_append]⟩

/-- The class of the error ending a generator run, none on a normal
return. -/
def streamErrClass {α : Type} : StreamResult α → Option String
  | StreamResult.err _ e => some e.cls
  | StreamResult.ok _ => none

/-- Claim C5: when the connection cannot be established or the server
answers with a non-success status, every operation fails with an error
whose message includes the underlying transport error text - the str of
the requests exception for a connection failure, the str of the
HTTPError for a bad status. -/
theorem transport_error_text_in_message (api : OllamaAPI) (e model prompt : String)
    (messages : List Dict) (params : Option Dict) (status : Nat) (st : String)
    (body : Except String Json) (lines : List StreamLine)
    (h4 : 400 ≤ status) (h6 : status < 600) :
    (∃ msg, (api.list_models (HttpOutcome.connError e)).result
        = Except.error (PyError.exc msg) ∧ includesText msg e) ∧
    (∃ msg, (api.generate model prompt params (HttpOutcome.connError e)).result
        = Except.error (PyError.exc msg) ∧ includesText msg e) ∧
    (∃ msg, (api.generate_stream model prompt params (HttpOutcome.connError e)).stream
        = StreamResult.err [] (PyError.exc msg) ∧ includesText msg e) ∧
    (∃ msg, (api.chat model messages params (HttpOutcome.connError e)).result
        = Except.error (PyError.exc msg) ∧ includesText msg e) ∧
    (∃ msg, (api.chat_stream model messages params (HttpOutcome.connError e)).stream
        = StreamResult.err [] (PyError.exc msg) ∧ includesText msg e) ∧
    (∃ msg, (api.list_models (HttpOutcome.response status st body)).result
        = Except.error (PyError.exc msg) ∧ includesText msg st) ∧
    (∃ msg, (api.generate model prompt params (HttpOutcome.response status st body)).result
        = Except.error (PyError.exc msg) ∧ includesText msg st) ∧
    (∃ msg, (api.generate_stream model prompt params
          (HttpOutcome.response status st lines)).stream
        = StreamResult.err [] (PyError.exc msg) ∧ includesText msg st) ∧
    (∃ msg, (api.chat model messages params (HttpOutcome.response status st body)).result
        = Except.error (PyError.exc msg) ∧ includesText msg st) ∧
    (∃ msg, (api.chat_stream model messages params
          (HttpOutcome.response status st lines)).stream
        = StreamResult.err [] (PyError.exc msg) ∧ includesText msg st) := by
  refine ⟨⟨_, rfl, includesText_append_right _ _⟩,
          ⟨_, rfl, includesText_append_right _ _⟩,
          ⟨_, rfl, includesText_append_right _ _⟩,
          ⟨_, rfl, includesText_append_right _ _⟩,
          ⟨_, rfl, includesText_append_right _ _⟩, ?_, ?_, ?_, ?_, ?_⟩
  · refine ⟨_, ?_, includesText_append_right "Не удалось получить список моделей: " st⟩
    show (if 400 ≤ status ∧ status < 600 then _ else _) = _
    rw [if_pos ⟨h4, h6⟩]
  · refine ⟨_, ?_, includesText_append_right "Не удалось получить ответ от модели: " st⟩
    show (if 400 ≤ status ∧ status < 600 then _ else _) = _
    rw [if_pos ⟨h4, h6⟩]
  · refine ⟨_, ?_, includesText_append_right "Не удалось получить потоковый ответ от модели: " st⟩
    show (if 400 ≤ status ∧ status < 600 then _ else _) = _
    rw [if_pos ⟨h4, h6⟩]
  · refine ⟨_, ?_, includesText_append_right "Не удалось получить ответ чата от модели: " st⟩
    show (if 400 ≤ status ∧ status < 600 then _ else _) = _
    rw [if_pos ⟨h4, h6⟩]
  · refine ⟨_, ?_, includesText_append_right "Не удалось получить потоковый ответ чата от модели: " st⟩
    show (if 400 ≤ status ∧ status < 600 then _ else _) = _
    rw [if_pos ⟨h4, h6⟩]

theorem transport_error_text_in_message_witness :
    (∃ msg, ((OllamaAPI.init none).list_models (HttpOutcome.connError "Connection refused")).result
        = Except.error (PyError.exc msg) ∧ includesText msg "Connection refused") ∧
    (∃ msg, ((OllamaAPI.init none).list_models
          (HttpOutcome.response 500 "500 Server Error" (Except.ok Json.null))).result
        = Except.error (PyError.exc msg) ∧ includesText msg "500 Server Error") :=
  ⟨(transport_error_text_in_message (OllamaAPI.init none) "Connection refused" "m" "p" []
      none 500 "500 Server Error" (Except.ok Json.null) [] (by decide) (by decide)).1,
   (transport_error_text_in_message (OllamaAPI.init none) "Connection refused" "m" "p" []
      none 500 "500 Server Error" (Except.ok Json.null) [] (by decide) (by decide)).2.2.2.2.2.1⟩

/-- Claim C6 counterexample: a request that exceeds the time bound and a
request whose connection fails surface as errors of the very same
exception class, the plain generic Exception - there is no Timeout
condition distinguishable from the connection-failure condition. -/
theorem timeout_not_distinct_cex :
    errClass ((OllamaAPI.init none).list_models
        (HttpOutcome.timeoutError "Read timed out.")).result = some "Exception" ∧
    errClass ((OllamaAPI.init none).list_models
        (HttpOutcome.connError "Connection refused")).result = some "Exception" ∧
    errClass ((OllamaAPI.init none).list_models
        (HttpOutcome.timeoutError "Read timed out.")).result
      = errClass ((OllamaAPI.init none).list_models
        (HttpOutcome.connError "Connection refused")).result :=
  ⟨rfl, rfl, rfl⟩

/-- Claim C6 amended: every transport-layer failure - connection error,
timeout, or non-success status - is caught by one catch-all handler for
RequestException and re-raised as the same plain generic Exception in
every operation; a timeout is therefore not a condition distinct from a
connection failure, the two differ only in their message text. -/
theorem failures_single_generic_exception (api : OllamaAPI) (e model prompt : String)
    (messages : List Dict) (params : Option Dict) (status : Nat) (st : String)
    (body : Except String Json) (lines : List StreamLine)
    (h4 : 400 ≤ status) (h6 : status < 600) :
    errClass (api.list_models (HttpOutcome.timeoutError e)).result = some "Exception" ∧
    errClass (api.list_models (HttpOutcome.connError e)).result = some "Exception" ∧
    errClass (api.list_models (HttpOutcome.response status st body)).result
        = some "Exception" ∧
    errClass (api.generate model prompt params (HttpOutcome.timeoutError e)).result
        = some "Exception" ∧
    errClass (api.generate model prompt params (HttpOutcome.connError e)).result
        = some "Exception" ∧
    errClass (api.generate model prompt params
        (HttpOutcome.response status st body)).result = some "Exception" ∧
    streamErrClass (api.generate_stream model prompt params
        (HttpOutcome.timeoutError e)).stream = some "Exception" ∧
    streamErrClass (api.generate_stream model prompt params
        (HttpOutcome.connError e)).stream = some "Exception" ∧
    streamErrClass (api.generate_stream model prompt params
        (HttpOutcome.response status st lines)).stream = some "Exception" ∧
    errClass (api.chat model messages params (HttpOutcome.timeoutError e)).result
        = some "Exception" ∧
    errClass (api.chat model messages params (HttpOutcome.connError e)).result
        = some "Exception" ∧
    errClass (api.chat model messages params
        (HttpOutcome.response status st body)).result = some "Exception" ∧
    streamErrClass (api.chat_stream model messages params
        (HttpOutcome.timeoutError e)).stream = some "Exception" ∧
    streamErrClass (api.chat_stream model messages params
        (HttpOutcome.connError e)).stream = some "Exception" ∧
    streamErrClass (api.chat_stream model messages params
        (HttpOutcome.response status st lines)).stream = some "Exception" := by
  refine ⟨rfl, rfl, ?_, rfl, rfl, ?_, rfl, rfl, ?_, rfl, rfl, ?_, rfl, rfl, ?_⟩
  · show errClass (if 400 ≤ status ∧ status < 600 then _ else _) = _
    rw [if_pos ⟨h4, h6⟩]
    rfl
  · show errClass (if 400 ≤ status ∧ status < 600 then _ else _) = _
    rw [if_pos ⟨h4, h6⟩]
    rfl
  · show streamErrClass (if 400 ≤ status ∧ status < 600 then _ else _) = _
    rw [if_pos ⟨h4, h6⟩]
    rfl
  · show errClass (if 400 ≤ status ∧ status < 600 then _ else _) = _
    rw [if_pos ⟨h4, h6⟩]
    rfl
  · show streamErrClass (if 400 ≤ status ∧ status < 600 then _ else _) = _
    rw [if_pos ⟨h4, h6⟩]
    rfl

theorem failures_single_generic_exception_witness :
    errClass ((OllamaAPI.init none).list_models
        (HttpOutcome.timeoutError "Read timed out.")).result = some "Exception" ∧
    errClass ((OllamaAPI.init none).list_models
        (HttpOutcome.response 503 "503 Server Error" (Except.ok Json.null))).result
      = some "Exception" :=
  ⟨(failures_single_generic_exception (OllamaAPI.init none) "Read timed out." "m" "p" []
      none 503 "503 Server Error" (Except.ok Json.null) [] (by decide) (by decide)).1,
   (failures_single_generic_exception (OllamaAPI.init none) "Read timed out." "m" "p" []
      none 503 "503 Server Error" (Except.ok Json.null) [] (by decide) (by decide)).2.2.1⟩

/-- Claim C7 counterexample: a 200 response whose body is not valid JSON
makes generate fail with the same plain generic Exception class as a
connection failure - there is no distinct MalformedResponse condition
the caller could tell apart. -/
theorem malformed_body_not_distinct_cex :
    errClass ((OllamaAPI.init none).generate "qwen3" "hi" none
        (HttpOutcome.response 200 "OK"
          (Except.error "Expecting value: line 1 column 1 (char 0)"))).result
      = some "Exception" ∧
    errClass ((OllamaAPI.init none).generate "qwen3" "hi" none
        (HttpOutcome.connError "Connection refused")).result = some "Exception" ∧
    errClass ((OllamaAPI.init none).generate "qwen3" "hi" none
        (HttpOutcome.response 200 "OK"
          (Except.error "Expecting value: line 1 column 1 (char 0)"))).result
      = errClass ((OllamaAPI.init none).generate "qwen3" "hi" none
        (HttpOutcome.connError "Connection refused")).result :=
  ⟨rfl, rfl, rfl⟩

/-- Claim C7 amended: a response body or stream line that is not valid
JSON always makes the operation fail with an error reported to the
caller, never silently swallowed - but not with a distinct
MalformedResponse condition: the non-streaming operations catch the
parse failure in the same RequestException handler as transport errors
and re-raise the plain generic Exception with the parse error text
embedded, while in the streaming operations the raw standard-library
JSON decode error escapes, after the elements already yielded. -/
theorem parse_failure_reported (api : OllamaAPI) (model prompt msg : String)
    (messages : List Dict) (params : Option Dict) (st : String) :
    (api.list_models (HttpOutcome.response 200 st (Except.error msg))).result
      = Except.error (PyError.exc ("Не удалось получить список моделей: " ++ msg)) ∧
    (api.generate model prompt params
        (HttpOutcome.response 200 st (Except.error msg))).result
      = Except.error (PyError.exc ("Не удалось получить ответ от модели: " ++ msg)) ∧
    (api.chat model messages params
        (HttpOutcome.response 200 st (Except.error msg))).result
      = Except.error (PyError.exc ("Не удалось получить ответ чата от модели: " ++ msg)) ∧
    (api.generate_stream model prompt params
        (HttpOutcome.response 200 st [⟨"bad line", Except.error msg⟩])).stream
      = StreamResult.err [] (PyError.jsonDecodeError msg) ∧
    (api.chat_stream model messages params
        (HttpOutcome.response 200 st [⟨"bad line", Except.error msg⟩])).stream
      = StreamResult.err [] (PyError.jsonDecodeError msg) :=
  ⟨rfl, rfl, rfl, rfl, rfl⟩

/-- Claim C8: the only state of the client is the three endpoint URLs
fixed at construction - from the configured host and port, or from a
truthy base-URL override suffixed with the three API paths - and every
operation leaves the state unchanged. -/
theorem client_state_immutable :
    (∀ u : String, u ≠ "" →
        OllamaAPI.init (some u) =
          { api_models := u ++ "/api/tags"
            api_generate := u ++ "/api/generate"
            api_chat := u ++ "/api/chat" }) ∧
    OllamaAPI.init none =
      { api_models := OLLAMA_API_MODELS
        api_generate := OLLAMA_API_GENERATE
        api_chat := OLLAMA_API_CHAT } ∧
    (∀ (api : OllamaAPI) (t : HttpOutcome (Except String Json)),
        (api.list_models t).state = api) ∧
    (∀ (api : OllamaAPI) (model prompt : String) (params : Option Dict)
        (t : HttpOutcome (Except String Json)),
        (api.generate model prompt params t).state = api) ∧
    (∀ (api : OllamaAPI) (model prompt : String) (params : Option Dict)
        (t : HttpOutcome (List StreamLine)),
        (api.generate_stream model prompt params t).state = api) ∧
    (∀ (api : OllamaAPI) (model : String) (messages : List Dict) (params : Option Dict)
        (t : HttpOutcome (Except String Json)),
        (api.chat model messages params t).state = api) ∧
    (∀ (api : OllamaAPI) (model : String) (messages : List Dict) (params : Option Dict)
        (t : HttpOutcome (List StreamLine)),
        (api.chat_stream model messages params t).state = api) := by
  refine ⟨fun u hu => ?_, rfl, fun _ _ => rfl, fun _ _ _ _ _ => rfl,
          fun _ _ _ _ _ => rfl, fun _ _ _ _ _ => rfl, fun _ _ _ _ _ => rfl⟩
  rw [OllamaAPI.init]
  exact if_neg hu

theorem client_state_immutable_witness :
    OllamaAPI.init (some "http://host:9999") =
      { api_models := "http://host:9999" ++ "/api/tags"
        api_generate := "http://host:9999" ++ "/api/generate"
        api_chat := "http://host:9999" ++ "/api/chat" } :=
  client_state_immutable.1 "http://host:9999" (by decide)

/-- Claim C9: a successfully parsed body in which the expected field is
absent yields a default instead of a failure: list_models returns the
empty list without a models key, generate returns the empty string
without a response key, and a generate_stream line without a response
key yields the empty string as its element. -/
theorem missing_fields_default_values (api : OllamaAPI) (model prompt : String)
    (params : Option Dict) (st : String) (fields fields2 o : Dict)
    (h1 : dictHasKey fields "models" = false)
    (h2 : dictHasKey fields2 "response" = false)
    (h3 : dictHasKey o "response" = false)
    (h4 : (dictGetD o "done" (Json.bool false)).truthy = false) :
    (api.list_models (HttpOutcome.response 200 st (Except.ok (Json.obj fields)))).result
        = Except.ok (Json.arr []) ∧
    (api.generate model prompt params
        (HttpOutcome.response 200 st (Except.ok (Json.obj fields2)))).result
        = Except.ok (Json.str "") ∧
    (api.generate_stream model prompt params
        (HttpOutcome.response 200 st [⟨"line", Except.ok (Json.obj o)⟩])).stream
        = StreamResult.ok [Json.str ""] := by
  refine ⟨?_, ?_, ?_⟩
  · show (match (Except.ok (Json.obj fields) : Except String Json) with
      | Except.error msg =>
          Except.error (PyError.exc ("Не удалось получить список моделей: " ++ msg))
      | Except.ok (Json.obj fs) =>
          match pyLen? (dictGetD fs "models" (Json.arr [])) with
          | some _ => Except.ok (dictGetD fs "models" (Json.arr []))
          | none => Except.error (PyError.typeError "object has no len()")
      | Except.ok _ =>
          Except.error (PyError.attributeError "no attribute get")) = Except.ok (Json.arr [])
    have hm : dictGetD fields "models" (Json.arr []) = Json.arr [] := by
      rw [dictGetD, dictGet?_eq_none_of_hasKey fields "models" h1]
      rfl
    simp only [hm]
    rfl
  · show (match (Except.ok (Json.obj fields2) : Except String Json) with
      | Except.error msg =>
          Except.error (PyError.exc ("Не удалось получить ответ от модели: " ++ msg))
      | Except.ok (Json.obj fs) =>
          match pyLen? (dictGetD fs "response" (Json.str "")) with
          | some _ => Except.ok (dictGetD fs "response" (Json.str ""))
          | none => Except.error (PyError.typeError "object has no len()")
      | Except.ok _ =>
          Except.error (PyError.attributeError "no attribute get")) = Except.ok (Json.str "")
    have hr : dictGetD fields2 "response" (Json.str "") = Json.str "" := by
      rw [dictGetD, dictGet?_eq_none_of_hasKey fields2 "response" h2]
      rfl
    simp only [hr]
    rfl
  · show generateStreamLoop [⟨"line", Except.ok (Json.obj o)⟩] = StreamResult.ok [Json.str ""]
    have hr : dictGetD o "response" (Json.str "") = Json.str "" := by
      rw [dictGetD, dictGet?_eq_none_of_hasKey o "response" h3]
      rfl
    rw [generateStreamLoop, if_neg (by decide : ¬ ("line" : String) = "")]
    simp only [hr, h4]
    rfl

theorem missing_fields_default_values_witness :
    ((OllamaAPI.init none).list_models
        (HttpOutcome.response 200 "OK" (Except.ok (Json.obj [])))).result
      = Except.ok (Json.arr []) ∧
    ((OllamaAPI.init none).generate "qwen3" "hi" none
        (HttpOutcome.response 200 "OK" (Except.ok (Json.obj [("done", Json.bool true)])))).result
      = Except.ok (Json.str "") ∧
    ((OllamaAPI.init none).generate_stream "qwen3" "hi" none
        (HttpOutcome.response 200 "OK"
          [⟨"line", Except.ok (Json.obj [("done", Json.bool false)])⟩])).stream
      = StreamResult.ok [Json.str ""] :=
  missing_fields_default_values (OllamaAPI.init none) "qwen3" "hi" none "OK"
    [] [("done", Json.bool true)] [("done", Json.bool false)] rfl rfl rfl rfl

/-- Lookup at another key is unaffected by the defaulting idiom. -/
theorem dictGet?_withDefault_ne (d : Dict) (k k₂ : String) (v : Json) (h : k₂ ≠ k) :
    dictGet? (if dictHasKey d k then d else dictSet d k v) k₂ = dictGet? d k₂ := by
  by_cases hk : dictHasKey d k = true
  · rw [if_pos hk]
  · rw [if_neg hk, dictGet?_dictSet_ne d k k₂ v h]

theorem generateRequestData_get_ne (model prompt : String) (p : Dict) (k : String)
    (h : k ≠ "max_tokens") :
    dictGet? (generateRequestData model prompt (some p)) k
      = dictGet? (dictUpdate
          [("model", Json.str model), ("prompt", Json.str prompt)] p) k :=
  dictGet?_withDefault_ne _ _ _ _ h

theorem generateStreamRequestData_get_ne (model prompt : String) (p : Dict) (k : String)
    (h : k ≠ "max_tokens") :
    dictGet? (generateStreamRequestData model prompt (some p)) k
      = dictGet? (dictUpdate
          [("model", Json.str model), ("prompt", Json.str prompt),
           ("stream", Json.bool true)] p) k :=
  dictGet?_withDefault_ne _ _ _ _ h

/-- Claim C10: the options mapping is merged into the request body after
the base fields are set, so an options entry named model, prompt,
messages or stream replaces the value the operation would otherwise
transmit for that key, in every POST-based operation. -/
theorem params_override_base_fields (api : OllamaAPI) (model prompt : String)
    (messages : List Dict) (p : Dict) (k : String) (v : Json)
    (t : HttpOutcome (Except String Json)) (ts : HttpOutcome (List StreamLine))
    (tc : HttpOutcome (Except String Json)) (tcs : HttpOutcome (List StreamLine))
    (hk : k ∈ (["model", "prompt", "messages", "stream"] : List String))
    (hnd : (dictKeys p).Nodup)
    (hv : dictGet? p k = some v) :
    dictGet? (api.generate model prompt (some p) t).sent k = some v ∧
    dictGet? (api.generate_stream model prompt (some p) ts).sent k = some v ∧
    dictGet? (api.chat model messages (some p) tc).sent k = some v ∧
    dictGet? (api.chat_stream model messages (some p) tcs).sent k = some v := by
  have hkm : k ≠ "max_tokens" := by
    simp only [List.mem_cons, List.not_mem_nil, or_false] at hk
    rcases hk with rfl | rfl | rfl | rfl <;> decide
  refine ⟨?_, ?_, ?_, ?_⟩
  · show dictGet? (generateRequestData model prompt (some p)) k = some v
    rw [generateRequestData_get_ne model prompt p k hkm,
        dictGet?_dictUpdate_mem p k v hnd hv]
  · show dictGet? (generateStreamRequestData model prompt (some p)) k = some v
    rw [generateStreamRequestData_get_ne model prompt p k hkm,
        dictGet?_dictUpdate_mem p k v hnd hv]
  · exact dictGet?_dictUpdate_mem p k v hnd hv _
  · exact dictGet?_dictUpdate_mem p k v hnd hv _

theorem params_override_base_fields_witness :
    dictGet? ((OllamaAPI.init none).generate_stream "qwen3" "hi"
        (some [("stream", Json.bool false)]) (HttpOutcome.connError "x")).sent "stream"
      = some (Json.bool false) ∧
    dictGet? ((OllamaAPI.init none).generate "qwen3" "hi"
        (some [("prompt", Json.str "other")]) (HttpOutcome.connError "x")).sent "prompt"
      = some (Json.str "other") :=
  ⟨(params_override_base_fields (OllamaAPI.init none) "qwen3" "hi" []
      [("stream", Json.bool false)] "stream" (Json.bool false)
      (HttpOutcome.connError "x") (HttpOutcome.connError "x")
      (HttpOutcome.connError "x") (HttpOutcome.connError "x")
      (by decide) (by simp [dictKeys]) rfl).2.1,
   (params_override_base_fields (OllamaAPI.init none) "qwen3" "hi" []
      [("prompt", Json.str "other")] "prompt" (Json.str "other")
      (HttpOutcome.connError "x") (HttpOutcome.connError "x")
      (HttpOutcome.connError "x") (HttpOutcome.connError "x")
      (by decide) (by simp [dictKeys]) rfl).1⟩
